import Mathlib

/-!
Verification of the serverless image-processing pipeline
(functions `upload-image`, `process-image`, `log-notification`).

Shallow embedding conventions:
* JSON values produced by `json.loads` are modelled by the inductive `Json`
  (numbers restricted to integers; floating point is out of scope).
* The transport decode chain `base64.b64decode(raw).decode("utf-8")` followed
  by `json.loads` is modelled by its observable outcome (`MsgData`): the raw
  `message.data` string is either empty/missing, fails one of the library
  decoders (all of which raise subclasses of `ValueError`, i.e. exception
  classes caught by the handlers), or decodes to a `Json` value.
* External side effects (object-store writes, queue publishes, the structured
  log print) are recorded in order as an `Effect` trace; whether an attempted
  store write or publish succeeds is an input of the environment.
* The Pillow decode/grayscale/re-encode pipeline (a deterministic pure
  function of the input bytes, per the source: `Image.open`, `convert("L")`,
  `save(format="JPEG", quality=90)`) is a parameter `pil` of the Processing
  handler; `none` models a decode/convert/encode exception.
-/

/-- A JSON value as returned by `json.loads` (numbers restricted to `Int`). -/
inductive Json where
  | str (s : String)
  | num (n : Int)
  | bool (b : Bool)
  | null
  | arr (elems : List Json)
  | obj (fields : List (String × Json))

mutual

/-- Python `repr` of a JSON-decoded value (as used by `str` on containers).
String escaping is not modelled: the repository never constructs reprs of
strings containing quotes. -/
def Json.pyRepr : Json → String
  | .str s => "'" ++ s ++ "'"
  | .num n => toString n
  | .bool b => if b then "True" else "False"
  | .null => "None"
  | .arr elems => "[" ++ String.intercalate ", " (pyReprList elems) ++ "]"
  | .obj fields =>
      "\x7b" ++ String.intercalate ", " (pyReprPairs fields) ++ "\x7d"

/-- `repr` of each element of a JSON array. -/
def pyReprList : List Json → List String
  | [] => []
  | j :: js => j.pyRepr :: pyReprList js

/-- `repr` of each `key: value` entry of a JSON object. -/
def pyReprPairs : List (String × Json) → List String
  | [] => []
  | (k, v) :: ps => ("'" ++ k ++ "': " ++ v.pyRepr) :: pyReprPairs ps

end

/-- Python `str` of a JSON-decoded value, as applied by an f-string
interpolation: identity on strings, `repr`-style on everything else. -/
def Json.pyStr : Json → String
  | .str s => s
  | j => j.pyRepr

/-- Python truthiness of a JSON-decoded value (`if not x`). -/
def Json.pyTruthy : Json → Bool
  | .str s => s != ""
  | .num n => n != 0
  | .bool b => b
  | .null => false
  | .arr elems => !elems.isEmpty
  | .obj fields => !fields.isEmpty

/-- Is the value a JSON string? -/
def Json.isStr : Json → Bool
  | .str _ => true
  | _ => false

/-- Lookup in a JSON object, mirroring Python `dict` semantics after
`json.loads` (a duplicated key keeps its last occurrence). -/
def jLookup (fields : List (String × Json)) (k : String) : Option Json :=
  (fields.reverse.find? (fun p => p.1 == k)).map (·.2)

/-- Python `payload.get(k, default)` on a JSON object. -/
def jGet (fields : List (String × Json)) (k : String) (default : Json) : Json :=
  (jLookup fields k).getD default

/-- Last index of character `c` in `cs` (Python `str.rfind`), `none` if absent. -/
def lastIdx (cs : List Char) (c : Char) : Option Nat :=
  ((List.range cs.length).filter (fun i => cs.getD i ' ' == c)).getLast?

/-- `os.path.splitext` on POSIX (`sep = '/'`, no altsep, `extsep = '.'`):
split at the last dot that follows the last slash, unless every character
between the start of the basename and that dot is itself a dot. -/
def splitext (p : String) : String × String :=
  let cs := p.data
  match lastIdx cs '.' with
  | none => (p, "")
  | some d =>
    let s0 : Nat := match lastIdx cs '/' with
      | none => 0
      | some s => s + 1
    if s0 ≤ d then
      if ((List.range d).drop s0).any (fun i => cs.getD i ' ' != '.') then
        (⟨cs.take d⟩, ⟨cs.drop d⟩)
      else (p, "")
    else (p, "")

/-- Python `str.lower` (ASCII case mapping; the allow-listed extensions are
all ASCII). -/
def pyLower (s : String) : String := ⟨s.data.map Char.toLower⟩

/-- `ALLOWED_EXTENSIONS` from `upload-image/main.py` (insertion order of the
set literal). -/
def ALLOWED_EXTENSIONS : List String :=
  [".jpg", ".jpeg", ".png", ".gif", ".bmp", ".webp", ".tiff"]

/-- Python `x or default` for an optional string header value
(`None` and `""` are falsy). -/
def pyOrDefault (x : Option String) (default : String) : String :=
  match x with
  | none => default
  | some s => if s = "" then default else s

/-- An attempted external side effect, in program order. -/
inductive Effect where
  | storePut (bucket key : String) (bytes : List Nat) (contentType : String)
  | publish (topic : String) (data : Json) (attrs : List (String × String))
  | logPrint (entry : Json)

/-- Is the effect a queue publish? -/
def Effect.isPublish : Effect → Bool
  | .publish _ _ _ => true
  | _ => false

/-- Is the effect an object-store write? -/
def Effect.isStorePut : Effect → Bool
  | .storePut _ _ _ _ => true
  | _ => false

/-- A `FileStorage` object from the multipart form (`request.files["image"]`):
filename as parsed (possibly absent), the stream bytes, and the declared
`Content-Type` (absent when the part carries none). Flask `FileStorage`
truthiness is `bool(self.filename)`. -/
structure FileObj where
  filename : Option String
  content : List Nat
  content_type : Option String

/-- The parts of the HTTP request read by `upload_image`. -/
structure UploadRequest where
  method : String
  files : List (String × FileObj)

/-- First file under a field name (`werkzeug` MultiDict access). -/
def lookupFile (files : List (String × FileObj)) (k : String) : Option FileObj :=
  (files.find? (fun p => p.1 == k)).map (·.2)

/-- Response of the Ingress handler: the CORS preflight tuple
`("", 204, headers)` or a `jsonify(body), status` pair. -/
inductive UploadResp where
  | corsPreflight
  | jsonResp (body : Json) (status : Nat)

/-- HTTP status code of an Ingress response. -/
def UploadResp.statusCode : UploadResp → Nat
  | .corsPreflight => 204
  | .jsonResp _ s => s

/-- Environment of an `upload_image` invocation: the injected configuration,
the random `uuid.uuid4()` and `datetime.utcnow()` strings, and whether the
attempted GCS upload and Pub/Sub publish succeed (an exception raised by
either library call is caught by the handler). -/
structure IngressEnv where
  uploadsBucket : String
  pubsubTopic : String
  upload_id : String
  timestamp : String
  gcsUploadOk : Bool
  publishOk : Bool

/-- Shallow embedding of `upload_image` (upload-image/main.py, lines 36-115).
Returns the ordered trace of attempted side effects and the HTTP response. -/
def upload_image (env : IngressEnv) (request : UploadRequest) :
    List Effect × UploadResp :=
  if request.method = "OPTIONS" then
    ([], .corsPreflight)
  else if request.method ≠ "POST" then
    ([], .jsonResp (.obj [("error", .str "Method not allowed. Use POST.")]) 405)
  else
    match lookupFile request.files "image" with
    | none =>
      ([], .jsonResp (.obj [("error", .str
        "Missing file. Send a multipart/form-data request with field name 'image'.")]) 400)
    | some file =>
      -- `not file or not file.filename`: FileStorage.__bool__ is
      -- bool(self.filename), so both conditions reduce to a missing or
      -- empty filename.
      match file.filename with
      | none =>
        ([], .jsonResp (.obj [("error", .str "Empty file or filename.")]) 400)
      | some fname =>
        if fname = "" then
          ([], .jsonResp (.obj [("error", .str "Empty file or filename.")]) 400)
        else
          let ext := pyLower (splitext fname).2
          if ¬ ALLOWED_EXTENSIONS.contains ext then
            ([], .jsonResp (.obj [("error", .str
              ("Unsupported file type '" ++ ext ++ "'. Allowed: " ++
                (Json.arr ((ALLOWED_EXTENSIONS.mergeSort (· ≤ ·)).map Json.str)).pyRepr))]) 400)
          else
            let object_name := env.timestamp ++ "_" ++ env.upload_id ++ ext
            let ct := pyOrDefault file.content_type "image/jpeg"
            let putEff := Effect.storePut env.uploadsBucket object_name file.content ct
            if ¬ env.gcsUploadOk then
              ([putEff], .jsonResp (.obj [("error", .str
                "Failed to store image. Please retry.")]) 500)
            else
              let message_data := Json.obj
                [ ("upload_id", .str env.upload_id)
                , ("bucket", .str env.uploadsBucket)
                , ("object_name", .str object_name)
                , ("original_filename", .str fname)
                , ("content_type", .str ct)
                , ("timestamp", .str env.timestamp) ]
              let pubEff := Effect.publish env.pubsubTopic message_data
                [("upload_id", env.upload_id)]
              if ¬ env.publishOk then
                ([putEff, pubEff], .jsonResp (.obj [("error", .str
                  "Image stored but failed to queue for processing.")]) 500)
              else
                ([putEff, pubEff], .jsonResp (.obj
                  [ ("upload_id", .str env.upload_id)
                  , ("object_name", .str object_name)
                  , ("message", .str "Image accepted and queued for processing.")
                  , ("status", .str "PROCESSING") ]) 202)

/-- The raw `message.data` string of a Pub/Sub CloudEvent, modelled by the
observable outcome of `base64.b64decode(raw).decode("utf-8")` followed by
`json.loads`:
* `noData` — the `data` field is missing or the empty string;
* `undecodable` — one of the library decoders raises (`binascii.Error`,
  `UnicodeDecodeError` and `json.JSONDecodeError` are all subclasses of
  `ValueError`, so every such failure is of a caught class);
* `decoded j` — `json.loads` succeeds with the value `j`. -/
inductive MsgData where
  | noData
  | undecodable
  | decoded (j : Json)

/-- Exception classes that can escape a handler in this model. -/
inductive PyExc where
  | attributeError
  | storageError
  | imageError
  | publishError

/-- How a handler invocation ends: a normal return or an uncaught exception
(which signals the queue to redeliver). -/
inductive Outcome where
  | ok
  | raised (e : PyExc)

/-- Shallow embedding of `_decode_pubsub_message` (identical in
process-image/main.py lines 38-43 and log-notification/main.py lines 22-27):
empty data raises `ValueError`, a decoder failure raises a subclass of
`ValueError`; both are of the classes caught by the callers, modelled as
`Except.error`. -/
def decode_pubsub_message (ev : MsgData) : Except Unit Json :=
  match ev with
  | .noData => .error ()
  | .undecodable => .error ()
  | .decoded j => .ok j

/-- Environment of a `process_image` invocation: injected configuration, the
raw-store contents (`none` models `download_as_bytes` raising), the
`datetime.now(timezone.utc).isoformat()` string, and whether the attempted
processed-store write and result publish succeed (a failure of either is
re-raised by the handler). -/
structure ProcEnv where
  uploadsBucket : String
  processedBucket : String
  resultsTopic : String
  store : String → String → Option (List Nat)
  now : String
  procWriteOk : Bool
  procPublishOk : Bool

/-- Shallow embedding of `process_image` (process-image/main.py, lines
46-126), parameterised by the Pillow pipeline `pil` (lines 79-85: decode,
grayscale, JPEG re-encode at quality 90 — a pure function of the input
bytes; `none` models an exception, which the handler re-raises). Returns
the ordered trace of attempted side effects and the invocation outcome.
A payload that decodes to a non-object JSON value raises `AttributeError`
at `payload.get`, outside every `try` block. -/
def process_image (pil : List Nat → Option (List Nat)) (env : ProcEnv)
    (ev : MsgData) : List Effect × Outcome :=
  match decode_pubsub_message ev with
  | .error _ => ([], .ok)
  | .ok payload =>
    match payload with
    | .obj fields =>
      let upload_id := jGet fields "upload_id" (.str "unknown")
      let src_bucket := jGet fields "bucket" (.str env.uploadsBucket)
      let object_name := jGet fields "object_name" (.str "")
      if ¬ object_name.pyTruthy then
        ([], .ok)
      else
        -- Step 2: download. A non-string bucket or object name makes the
        -- storage client raise inside the same `try`; both failures are
        -- re-raised.
        match src_bucket, object_name with
        | .str b, .str o =>
          match env.store b o with
          | none => ([], .raised .storageError)
          | some image_bytes =>
            match pil image_bytes with
            | none => ([], .raised .imageError)
            | some out_bytes =>
              let processed_name := "grayscale_" ++ upload_id.pyStr ++ ".jpg"
              let putEff := Effect.storePut env.processedBucket processed_name
                out_bytes "image/jpeg"
              if ¬ env.procWriteOk then
                ([putEff], .raised .storageError)
              else
                let result_payload := Json.obj
                  [ ("upload_id", upload_id)
                  , ("status", .str "SUCCESS")
                  , ("original_bucket", src_bucket)
                  , ("original_object", object_name)
                  , ("original_filename", jGet fields "original_filename" object_name)
                  , ("processed_bucket", .str env.processedBucket)
                  , ("processed_object", .str processed_name)
                  , ("processed_at", .str env.now) ]
                let pubEff := Effect.publish env.resultsTopic result_payload
                  [("upload_id", upload_id.pyStr), ("status", "SUCCESS")]
                if ¬ env.procPublishOk then
                  ([putEff, pubEff], .raised .publishError)
                else
                  ([putEff, pubEff], .ok)
        | _, _ => ([], .raised .storageError)
    | _ => ([], .raised .attributeError)

/-- Environment of a `log_notification` invocation: the
`datetime.now(timezone.utc).isoformat()` string and the CloudEvent id
(`cloud_event.get("id", "")`). -/
structure NotifEnv where
  now : String
  eventId : String

/-- Shallow embedding of `log_notification` (log-notification/main.py, lines
30-72). The structured JSON record printed to stdout is recorded as a
`logPrint` effect; `logger` calls are not side effects of the model. As in
`process_image`, a payload decoding to a non-object raises `AttributeError`
at `payload.get`. -/
def log_notification (env : NotifEnv) (ev : MsgData) : List Effect × Outcome :=
  match decode_pubsub_message ev with
  | .error _ => ([], .ok)
  | .ok payload =>
    match payload with
    | .obj fields =>
      let upload_id := jGet fields "upload_id" (.str "unknown")
      let status := jGet fields "status" (.str "UNKNOWN")
      let log_entry := Json.obj
        [ ("severity", .str "INFO")
        , ("message", .str ("Image pipeline completed for upload_id=" ++ upload_id.pyStr))
        , ("event_type", .str "IMAGE_PROCESSING_COMPLETE")
        , ("upload_id", upload_id)
        , ("status", status)
        , ("original", .obj
            [ ("bucket", jGet fields "original_bucket" (.str ""))
            , ("object", jGet fields "original_object" (.str ""))
            , ("filename", jGet fields "original_filename" (.str "")) ])
        , ("processed", .obj
            [ ("bucket", jGet fields "processed_bucket" (.str ""))
            , ("object", jGet fields "processed_object" (.str "")) ])
        , ("pipeline_completed_at", .str env.now)
        , ("processed_at", jGet fields "processed_at" (.str ""))
        , ("cloud_event_id", .str env.eventId) ]
      ([.logPrint log_entry], .ok)
    | _ => ([], .raised .attributeError)

/-- A sample raw store holding one object `photo.png` in bucket
`raw-bucket`. -/
def sampleStore : String → String → Option (List Nat) :=
  fun b o => if b = "raw-bucket" ∧ o = "photo.png" then some [7, 7, 7] else none

/-- A sample Processing environment over `sampleStore`. -/
def sampleProcEnv : ProcEnv :=
  { uploadsBucket := "raw-bucket"
  , processedBucket := "proc-bucket"
  , resultsTopic := "results"
  , store := sampleStore
  , now := "2026-01-01T00:00:00+00:00"
  , procWriteOk := true
  , procPublishOk := true }

/-- A sample Pillow pipeline: any concrete pure function of the bytes. -/
def samplePil : List Nat → Option (List Nat) := fun bs => some (0 :: bs)

/-- After a successful decode to a JSON object, `process_image` takes the
silent-drop return (no effects, normal termination) exactly when the
`object_name` field is Python-falsy. -/
lemma process_image_drop_iff (pil : List Nat → Option (List Nat))
    (env : ProcEnv) (fields : List (String × Json)) :
    process_image pil env (.decoded (.obj fields)) = ([], .ok) ↔
      (jGet fields "object_name" (.str "")).pyTruthy = false := by
  simp only [process_image, decode_pubsub_message]
  by_cases h : (jGet fields "object_name" (Json.str "")).pyTruthy
  · simp only [h, not_true_eq_false, Bool.false_eq_true, if_false, ite_false]
    constructor
    · intro hEq
      exfalso
      split at hEq <;> try simp_all
      split at hEq <;> try simp_all
      split at hEq <;> try simp_all
      split at hEq <;> try simp_all
      split at hEq <;> simp_all
    · intro hF
      exact absurd hF (by simp)
  · simp [h]

/-- C1: for a fixed Processing Request message and fixed raw-store contents,
the processed-store writes attempted by `process_image` (bucket, object key
and bytes alike) are identical across repeated invocations, whatever the
invocation clock reads and whatever transient write/publish failures each
delivery meets: the transform-and-store step is a deterministic function of
the message payload and the raw source bytes, so re-processing targets the
same artifact location with identical bytes. -/
theorem process_image_store_writes_idempotent
    (pil : List Nat → Option (List Nat)) (env : ProcEnv)
    (t₁ t₂ : String) (w₁ w₂ p₁ p₂ : Bool) (ev : MsgData) :
    ((process_image pil
        { env with now := t₁, procWriteOk := w₁, procPublishOk := p₁ } ev).1.filter
      Effect.isStorePut) =
    ((process_image pil
        { env with now := t₂, procWriteOk := w₂, procPublishOk := p₂ } ev).1.filter
      Effect.isStorePut) := by
  cases ev <;> simp only [process_image, decode_pubsub_message]
  case decoded j =>
    cases j <;> try rfl
    case obj fields =>
      repeat' split <;> (try simp_all [Effect.isStorePut, Effect.isPublish])

/-- C2: whenever `process_image` reaches the store step, the processed
artifact is written under the key `grayscale_<upload_id>.jpg` — a pure
function of `upload_id` with the fixed `.jpg` extension, independent of the
source object's name, extension or encoding. -/
theorem process_image_artifact_key
    (pil : List Nat → Option (List Nat)) (env : ProcEnv)
    (fields : List (String × Json)) (u b o : String)
    (bs out : List Nat)
    (hu : jGet fields "upload_id" (.str "unknown") = .str u)
    (hb : jGet fields "bucket" (.str env.uploadsBucket) = .str b)
    (ho : jGet fields "object_name" (.str "") = .str o)
    (hne : o ≠ "")
    (hdl : env.store b o = some bs)
    (hpil : pil bs = some out) :
    (process_image pil env (.decoded (.obj fields))).1.head? =
      some (.storePut env.processedBucket ("grayscale_" ++ u ++ ".jpg")
        out "image/jpeg") := by
  simp only [process_image, decode_pubsub_message, hu, hb, ho, Json.pyTruthy,
    Json.pyStr, hdl, hpil, bne_iff_ne, ne_eq, hne, not_false_iff, ite_false]
  split
  next h => exact absurd trivial h
  next _ =>
    split
    · rfl
    · split <;> rfl

/-- Witness for C2: with `upload_id = "abc-123"` and source object
`photo.png`, the artifact is written to key `grayscale_abc-123.jpg` in the
processed bucket. -/
theorem process_image_artifact_key_witness :
    (process_image samplePil sampleProcEnv (.decoded (.obj
      [ ("upload_id", .str "abc-123")
      , ("bucket", .str "raw-bucket")
      , ("object_name", .str "photo.png") ]))).1.head? =
      some (.storePut "proc-bucket" "grayscale_abc-123.jpg"
        (0 :: [7, 7, 7]) "image/jpeg") :=
  process_image_artifact_key samplePil sampleProcEnv
    [ ("upload_id", .str "abc-123")
    , ("bucket", .str "raw-bucket")
    , ("object_name", .str "photo.png") ]
    "abc-123" "raw-bucket" "photo.png" [7, 7, 7] (0 :: [7, 7, 7])
    rfl rfl rfl (by decide) (by simp [sampleProcEnv, sampleStore]) rfl

/-- C3: the decode failures of the caught classes — empty/missing data,
undecodable base64 or UTF-8, invalid JSON — make `process_image` return
normally with no publish and no store write; but a payload that decodes to
valid JSON that is not an object (here the array `[1, 2]`) escapes the
`except (ValueError, json.JSONDecodeError)` clause and raises
`AttributeError` at `payload.get`, so the handler does not terminate
normally on every malformed payload. -/
theorem process_image_malformed_payload_eval :
    (∀ pil env, process_image pil env .noData = ([], .ok)
        ∧ process_image pil env .undecodable = ([], .ok))
    ∧ process_image samplePil sampleProcEnv (.decoded (.arr [.num 1, .num 2]))
        = ([], .raised .attributeError) :=
  ⟨fun _ _ => ⟨rfl, rfl⟩, rfl⟩

/-- C7: a Processing Result message (a payload decoding to a JSON object)
delivered to `log_notification` twice — under arbitrary, possibly different,
clocks and CloudEvent ids — yields a normal termination on both runs, one
completion record per run, and `upload_id` and `status` fields that are
identical across the two records: both are deterministic functions of the
message payload alone. -/
theorem log_notification_duplicate_delivery
    (env₁ env₂ : NotifEnv) (fields : List (String × Json)) :
    ∃ j₁ j₂,
      log_notification env₁ (.decoded (.obj fields)) = ([.logPrint j₁], .ok) ∧
      log_notification env₂ (.decoded (.obj fields)) = ([.logPrint j₂], .ok) ∧
      ∃ fs₁ fs₂, j₁ = .obj fs₁ ∧ j₂ = .obj fs₂ ∧
        jGet fs₁ "upload_id" .null = jGet fs₂ "upload_id" .null ∧
        jGet fs₁ "status" .null = jGet fs₂ "status" .null := by
  refine ⟨_, _, rfl, rfl, _, _, rfl, rfl, rfl, rfl⟩

/-- C8: a well-formed Processing Request object lacking `upload_id` is not
poison: `process_image` substitutes the literal `"unknown"` and writes the
artifact to `grayscale_unknown.jpg`; and among payloads that decode to an
object whose `object_name` field (when present) is a string, the silent-drop
return happens exactly when `object_name` is missing or empty. -/
theorem process_image_missing_upload_id_not_poison
    (pil pil2 : List Nat → Option (List Nat)) (env env2 : ProcEnv)
    (fields fields2 : List (String × Json)) (b o : String)
    (bs out : List Nat)
    (hmiss : jLookup fields "upload_id" = none)
    (hb : jGet fields "bucket" (.str env.uploadsBucket) = .str b)
    (ho : jGet fields "object_name" (.str "") = .str o)
    (hne : o ≠ "")
    (hdl : env.store b o = some bs)
    (hpil : pil bs = some out)
    (hwf : ((jLookup fields2 "object_name").map Json.isStr).getD true = true) :
    (process_image pil env (.decoded (.obj fields))).1.head? =
      some (.storePut env.processedBucket "grayscale_unknown.jpg" out "image/jpeg")
    ∧ (process_image pil2 env2 (.decoded (.obj fields2)) = ([], .ok) ↔
        jGet fields2 "object_name" (.str "") = .str "") := by
  constructor
  · have hu : jGet fields "upload_id" (.str "unknown") = .str "unknown" := by
      simp [jGet, hmiss]
    simp only [process_image, decode_pubsub_message, hu, hb, ho, Json.pyTruthy,
      Json.pyStr, hdl, hpil, bne_iff_ne, ne_eq, hne, not_false_iff, ite_false]
    split
    next h => exact absurd trivial h
    next _ =>
      split
      · rfl
      · split <;> rfl
  · rw [process_image_drop_iff]
    rcases hv : jLookup fields2 "object_name" with _ | v
    · simp [jGet, hv, Json.pyTruthy]
    · have hs : v.isStr = true := by simpa [hv] using hwf
      rcases v with s | _ | _ | _ | _ | _ <;>
        simp_all [jGet, hv, Json.pyTruthy, Json.isStr]

/-- Witness for C8: a request payload carrying only `bucket` and
`object_name` is processed to `grayscale_unknown.jpg`, while a payload with
no `object_name` is silently dropped. -/
theorem process_image_missing_upload_id_not_poison_witness :
    (process_image samplePil sampleProcEnv (.decoded (.obj
      [ ("bucket", .str "raw-bucket")
      , ("object_name", .str "photo.png") ]))).1.head? =
      some (.storePut "proc-bucket" "grayscale_unknown.jpg"
        (0 :: [7, 7, 7]) "image/jpeg")
    ∧ (process_image samplePil sampleProcEnv (.decoded (.obj
        [("bucket", .str "raw-bucket")])) = ([], .ok) ↔
        jGet [("bucket", Json.str "raw-bucket")] "object_name" (.str "")
          = .str "") :=
  process_image_missing_upload_id_not_poison samplePil samplePil
    sampleProcEnv sampleProcEnv
    [("bucket", .str "raw-bucket"), ("object_name", .str "photo.png")]
    [("bucket", .str "raw-bucket")]
    "raw-bucket" "photo.png" [7, 7, 7] (0 :: [7, 7, 7])
    rfl rfl rfl (by decide) (by simp [sampleProcEnv, sampleStore]) rfl rfl

/-- A sample Ingress environment (fresh upload id `id-1`, timestamp
`20260101_000000`, both external calls succeeding). -/
def sampleIngressEnv : IngressEnv :=
  { uploadsBucket := "raw-bucket"
  , pubsubTopic := "req-topic"
  , upload_id := "id-1"
  , timestamp := "20260101_000000"
  , gcsUploadOk := true
  , publishOk := true }

/-- A sample uploaded file `cat.jpg` with a declared content type. -/
def sampleFileObj : FileObj :=
  { filename := some "cat.jpg", content := [1, 2, 3], content_type := some "image/png" }

/-- A sample valid POST upload request carrying `sampleFileObj`. -/
def sampleUploadReq : UploadRequest :=
  { method := "POST", files := [("image", sampleFileObj)] }

/-- Every `upload_image` trace has one of three shapes: no side effect, a
store-write attempt that failed (answered 500), or a store write followed by
a publish attempt — the publish is attempted only when the store write
succeeded. -/
lemma upload_image_trace_cases (env : IngressEnv) (req : UploadRequest) :
    (upload_image env req).1 = []
    ∨ (∃ b k bs ct, (upload_image env req).1 = [.storePut b k bs ct]
        ∧ env.gcsUploadOk = false
        ∧ (upload_image env req).2.statusCode = 500)
    ∨ (∃ b k bs ct t d a, (upload_image env req).1 =
          [.storePut b k bs ct, .publish t d a]
        ∧ env.gcsUploadOk = true) := by
  by_cases hm : req.method = "OPTIONS"
  · exact Or.inl (by simp [upload_image, hm])
  by_cases hp : req.method = "POST"
  · rcases hf : lookupFile req.files "image" with _ | file
    · exact Or.inl (by simp [upload_image, hm, hp, hf])
    rcases hfn : file.filename with _ | fn
    · exact Or.inl (by simp [upload_image, hm, hp, hf, hfn])
    by_cases hfe : fn = ""
    · exact Or.inl (by simp [upload_image, hm, hp, hf, hfn, hfe])
    by_cases hext : pyLower (splitext fn).2 ∈ ALLOWED_EXTENSIONS
    · cases hup : env.gcsUploadOk
      · refine Or.inr (Or.inl ⟨env.uploadsBucket,
          env.timestamp ++ "_" ++ env.upload_id ++ pyLower (splitext fn).2,
          file.content, pyOrDefault file.content_type "image/jpeg", ?_, rfl, ?_⟩)
        · simp [upload_image, hm, hp, hf, hfn, hfe, hext, hup]
        · simp [upload_image, hm, hp, hf, hfn, hfe, hext, hup, UploadResp.statusCode]
      · refine Or.inr (Or.inr ⟨env.uploadsBucket,
          env.timestamp ++ "_" ++ env.upload_id ++ pyLower (splitext fn).2,
          file.content, pyOrDefault file.content_type "image/jpeg",
          env.pubsubTopic,
          Json.obj
            [ ("upload_id", .str env.upload_id)
            , ("bucket", .str env.uploadsBucket)
            , ("object_name", .str (env.timestamp ++ "_" ++ env.upload_id ++
                pyLower (splitext fn).2))
            , ("original_filename", .str fn)
            , ("content_type", .str (pyOrDefault file.content_type "image/jpeg"))
            , ("timestamp", .str env.timestamp) ],
          [("upload_id", env.upload_id)], ?_, rfl⟩)
        cases hpub : env.publishOk <;>
          simp [upload_image, hm, hp, hf, hfn, hfe, hext, hup, hpub]
    · exact Or.inl (by simp [upload_image, hm, hp, hf, hfn, hfe, hext])
  · exact Or.inl (by simp [upload_image, hm, hp])

/-- C4: when the raw-store write fails, `upload_image` publishes nothing at
all, and whenever a store write was actually attempted it answers 500; and
in general (last conjunct, over arbitrary invocations) any publish attempt
occurs only in a trace whose first effect is a store write and only when
that write succeeded — a publish never precedes or accompanies a failed
store write. -/
theorem upload_image_store_failure_no_publish (env : IngressEnv)
    (req : UploadRequest) (h : env.gcsUploadOk = false) :
    (∀ e ∈ (upload_image env req).1, e.isPublish = false)
    ∧ ((∃ e ∈ (upload_image env req).1, e.isStorePut = true) →
        (upload_image env req).2.statusCode = 500)
    ∧ (∀ env2 req2, ∀ e ∈ (upload_image env2 req2).1, e.isPublish = true →
        env2.gcsUploadOk = true ∧
        (upload_image env2 req2).1.head?.map Effect.isStorePut = some true) := by
  refine ⟨?_, ?_, ?_⟩
  · rcases upload_image_trace_cases env req with h1 | ⟨b, k, bs, ct, h1, h2, h3⟩ |
      ⟨b, k, bs, ct, t, d, a, h1, h2⟩
    · simp [h1]
    · simp [h1, Effect.isPublish]
    · rw [h] at h2; exact absurd h2 (by simp)
  · rcases upload_image_trace_cases env req with h1 | ⟨b, k, bs, ct, h1, h2, h3⟩ |
      ⟨b, k, bs, ct, t, d, a, h1, h2⟩
    · simp [h1]
    · intro _; exact h3
    · rw [h] at h2; exact absurd h2 (by simp)
  · intro env2 req2 e he hpub
    rcases upload_image_trace_cases env2 req2 with h1 | ⟨b, k, bs, ct, h1, h2, h3⟩ |
      ⟨b, k, bs, ct, t, d, a, h1, h2⟩
    · rw [h1] at he; simp at he
    · rw [h1] at he
      simp at he
      rw [he] at hpub
      simp [Effect.isPublish] at hpub
    · exact ⟨h2, by simp [h1, Effect.isStorePut]⟩

/-- Witness for C4: a valid upload whose store write fails gets a 500 and no
publish attempt. -/
theorem upload_image_store_failure_no_publish_witness :
    (∀ e ∈ (upload_image { sampleIngressEnv with gcsUploadOk := false }
        sampleUploadReq).1, e.isPublish = false)
    ∧ ((∃ e ∈ (upload_image { sampleIngressEnv with gcsUploadOk := false }
          sampleUploadReq).1, e.isStorePut = true) →
        (upload_image { sampleIngressEnv with gcsUploadOk := false }
          sampleUploadReq).2.statusCode = 500)
    ∧ (∀ env2 req2, ∀ e ∈ (upload_image env2 req2).1, e.isPublish = true →
        env2.gcsUploadOk = true ∧
        (upload_image env2 req2).1.head?.map Effect.isStorePut = some true) :=
  upload_image_store_failure_no_publish
    { sampleIngressEnv with gcsUploadOk := false } sampleUploadReq rfl

/-- C5: a POST whose file field is missing, whose filename is missing or
empty, or whose filename extension (lowercased) is outside the allow-list
is answered 400 with no store write and no publish. -/
theorem upload_image_rejects_invalid_upload (env : IngressEnv)
    (req : UploadRequest)
    (hm : req.method = "POST")
    (hbad : lookupFile req.files "image" = none
      ∨ (∃ f, lookupFile req.files "image" = some f ∧
          (f.filename = none ∨ f.filename = some ""))
      ∨ (∃ f fn, lookupFile req.files "image" = some f ∧ f.filename = some fn ∧
          pyLower (splitext fn).2 ∉ ALLOWED_EXTENSIONS)) :
    (upload_image env req).1 = [] ∧ (upload_image env req).2.statusCode = 400 := by
  rcases hbad with hf | ⟨f, hf, hn | hn⟩ | ⟨f, fn, hf, hn, hext⟩
  · constructor <;> simp [upload_image, hm, hf, UploadResp.statusCode]
  · constructor <;> simp [upload_image, hm, hf, hn, UploadResp.statusCode]
  · constructor <;> simp [upload_image, hm, hf, hn, UploadResp.statusCode]
  · by_cases hfe : fn = ""
    · constructor <;> simp [upload_image, hm, hf, hn, hfe, UploadResp.statusCode]
    · constructor <;>
        simp [upload_image, hm, hf, hn, hfe, hext, UploadResp.statusCode]

/-- Witness for C5: uploading `notes.txt` is rejected with a 400 and leaves
no trace of side effects. -/
theorem upload_image_rejects_invalid_upload_witness :
    (upload_image sampleIngressEnv { method := "POST", files :=
      [("image", { sampleFileObj with filename := some "notes.txt" })] }).1 = []
    ∧ (upload_image sampleIngressEnv { method := "POST", files :=
      [("image", { sampleFileObj with filename := some "notes.txt" })] }).2.statusCode
        = 400 :=
  upload_image_rejects_invalid_upload sampleIngressEnv
    { method := "POST", files :=
      [("image", { sampleFileObj with filename := some "notes.txt" })] }
    rfl
    (Or.inr (Or.inr ⟨{ sampleFileObj with filename := some "notes.txt" },
      "notes.txt", rfl, rfl, by decide⟩))

/-- Counterexample to C6 as stated: an OPTIONS request has a non-POST
method, yet `upload_image` answers it with the 204 CORS preflight response,
not with a 405. -/
theorem upload_image_options_not_405 :
    ("OPTIONS" ≠ "POST")
    ∧ ¬ ((upload_image sampleIngressEnv
        { method := "OPTIONS", files := [] }).2.statusCode = 405) := by
  constructor
  · decide
  · decide

/-- C6 (amended): a request whose method is neither POST nor OPTIONS is
answered 405 with no store write and no publish; an OPTIONS request gets the
204 CORS preflight response, likewise with no side effects. -/
theorem upload_image_non_post_non_options_405 (env : IngressEnv)
    (req : UploadRequest)
    (h1 : req.method ≠ "POST") (h2 : req.method ≠ "OPTIONS") :
    ((upload_image env req).1 = [] ∧ (upload_image env req).2.statusCode = 405)
    ∧ ∀ env2 req2, req2.method = "OPTIONS" →
        (upload_image env2 req2).1 = []
        ∧ (upload_image env2 req2).2.statusCode = 204 := by
  refine ⟨⟨?_, ?_⟩, ?_⟩
  · simp [upload_image, h1, h2]
  · simp [upload_image, h1, h2, UploadResp.statusCode]
  · intro env2 req2 ho
    constructor <;> simp [upload_image, ho, UploadResp.statusCode]

/-- Witness for amended C6: a GET request is answered 405 with no side
effects. -/
theorem upload_image_non_post_non_options_405_witness :
    ((upload_image sampleIngressEnv { method := "GET", files := [] }).1 = []
      ∧ (upload_image sampleIngressEnv
          { method := "GET", files := [] }).2.statusCode = 405)
    ∧ ∀ env2 req2, req2.method = "OPTIONS" →
        (upload_image env2 req2).1 = []
        ∧ (upload_image env2 req2).2.statusCode = 204 :=
  upload_image_non_post_non_options_405 sampleIngressEnv
    { method := "GET", files := [] } (by decide) (by decide)

/-- C9: the extension check lowercases before testing membership, so a
filename whose lowercased extension is allow-listed is accepted (202), and
the generated object key is built from the lowercased extension, not the
original-case one. -/
theorem upload_image_extension_case_insensitive (env : IngressEnv)
    (req : UploadRequest) (f : FileObj) (fn : String)
    (hm : req.method = "POST")
    (hf : lookupFile req.files "image" = some f)
    (hfn : f.filename = some fn) (hne : fn ≠ "")
    (hext : pyLower (splitext fn).2 ∈ ALLOWED_EXTENSIONS)
    (hup : env.gcsUploadOk = true) (hpub : env.publishOk = true) :
    (upload_image env req).2.statusCode = 202 ∧
    (upload_image env req).1.head? = some (.storePut env.uploadsBucket
       (env.timestamp ++ "_" ++ env.upload_id ++ pyLower (splitext fn).2)
       f.content (pyOrDefault f.content_type "image/jpeg")) := by
  constructor <;>
    simp [upload_image, hm, hf, hfn, hne, hext, hup, hpub, UploadResp.statusCode]

/-- Witness for C9: `PHOTO.JPG` is accepted and stored under a key ending in
the lowercased `.jpg`. -/
theorem upload_image_extension_case_insensitive_witness :
    (upload_image sampleIngressEnv { method := "POST", files :=
      [("image", { sampleFileObj with filename := some "PHOTO.JPG" })] }).2.statusCode
        = 202 ∧
    (upload_image sampleIngressEnv { method := "POST", files :=
      [("image", { sampleFileObj with filename := some "PHOTO.JPG" })] }).1.head? =
      some (.storePut "raw-bucket" "20260101_000000_id-1.jpg" [1, 2, 3]
        "image/png") :=
  upload_image_extension_case_insensitive sampleIngressEnv
    { method := "POST", files :=
      [("image", { sampleFileObj with filename := some "PHOTO.JPG" })] }
    { sampleFileObj with filename := some "PHOTO.JPG" } "PHOTO.JPG"
    rfl rfl rfl (by decide) (by decide) rfl rfl

/-- C10: an accepted upload with no declared content type uses the default
`image/jpeg` consistently — the stored raw object's content type and the
`content_type` field of the published Processing Request message are both
that same default. -/
theorem upload_image_default_content_type_consistent (env : IngressEnv)
    (req : UploadRequest) (f : FileObj) (fn : String)
    (hm : req.method = "POST")
    (hf : lookupFile req.files "image" = some f)
    (hfn : f.filename = some fn) (hne : fn ≠ "")
    (hext : pyLower (splitext fn).2 ∈ ALLOWED_EXTENSIONS)
    (hup : env.gcsUploadOk = true) (hpub : env.publishOk = true)
    (hct : f.content_type = none) :
    (upload_image env req).1 =
      [ .storePut env.uploadsBucket
          (env.timestamp ++ "_" ++ env.upload_id ++ pyLower (splitext fn).2)
          f.content "image/jpeg"
      , .publish env.pubsubTopic (.obj
          [ ("upload_id", .str env.upload_id)
          , ("bucket", .str env.uploadsBucket)
          , ("object_name", .str (env.timestamp ++ "_" ++ env.upload_id ++
              pyLower (splitext fn).2))
          , ("original_filename", .str fn)
          , ("content_type", .str "image/jpeg")
          , ("timestamp", .str env.timestamp) ])
          [("upload_id", env.upload_id)] ] := by
  simp [upload_image, hm, hf, hfn, hne, hext, hup, hpub, pyOrDefault, hct]

/-- Witness for C10: `cat.jpg` uploaded without a content type is stored
with `image/jpeg` and announced with `content_type = "image/jpeg"`. -/
theorem upload_image_default_content_type_consistent_witness :
    (upload_image sampleIngressEnv { method := "POST", files :=
      [("image", { sampleFileObj with content_type := none })] }).1 =
      [ .storePut "raw-bucket" "20260101_000000_id-1.jpg" [1, 2, 3] "image/jpeg"
      , .publish "req-topic" (.obj
          [ ("upload_id", .str "id-1")
          , ("bucket", .str "raw-bucket")
          , ("object_name", .str "20260101_000000_id-1.jpg")
          , ("original_filename", .str "cat.jpg")
          , ("content_type", .str "image/jpeg")
          , ("timestamp", .str "20260101_000000") ])
          [("upload_id", "id-1")] ] :=
  upload_image_default_content_type_consistent sampleIngressEnv
    { method := "POST", files :=
      [("image", { sampleFileObj with content_type := none })] }
    { sampleFileObj with content_type := none } "cat.jpg"
    rfl rfl rfl (by decide) (by decide) rfl rfl rfl
